import Mathlib

/-!
# Verification of the BLE OBD2 client core (BLEOBDClient)

Shallow embedding of the connection/command state machine and the
response-framing/parsing pipeline of `BLEOBDClient.cpp` / `BLEOBDClient.h`.

Modelling conventions:
* Arduino `String` is modelled by Lean `String` (ASCII payloads only).
* `millis()` is modelled by a `now : Nat` argument supplied to every entry
  point; within a single invocation of a C++ function all `millis()` reads
  are taken at the same instant (the in-function drift, including the fixed
  `delay(...)` calls of `initializeOBD`, does not affect any property stated
  here).  `unsigned long` arithmetic is modelled on `Nat` (times are
  monotone and far from the 32-bit wrap in every scenario considered).
* `float` values are modelled as exact rationals `ℚ`.
* BLE transport calls (`pTxCharacteristic->writeValue`, `pBLEScan->start`,
  `pClient->disconnect`, all `Serial` printing) have no effect on the
  client's own state and are dropped; their *callbacks* (`onDisconnect`,
  `onResult`, `bleNotifyCallback`) are modelled as explicit transitions.
-/

namespace BLEOBD

/-- The characters `isspace` accepts (used by Arduino `String::trim`
and by `strtol` for leading-whitespace skipping). -/
def isSpaceChar (c : Char) : Bool :=
  c = ' ' || c = '\t' || c = '\n' || c = '\x0b' || c = '\x0c' || c = '\r'

/-- Arduino `String::replace(" ", "")`: removes every space character. -/
def stripSpaces (s : String) : String :=
  String.mk (s.data.filter fun c => c != ' ')

/-- Arduino `String::substring(left, right)`: the characters in `[left, right)`,
with the arguments swapped when out of order and clamped to the length
(out-of-range `left` yields the empty string). -/
def substringA (s : String) (left right : Nat) : String :=
  let l := min left right
  let r := max left right
  String.mk ((s.data.drop l).take (r - l))

/-- Arduino `String::startsWith`. -/
def startsWithA (s p : String) : Bool :=
  p.data.isPrefixOf s.data

/-- Arduino `String::trim`: strip leading and trailing `isspace` characters. -/
def trimA (s : String) : String :=
  String.mk (((s.data.dropWhile isSpaceChar).reverse.dropWhile isSpaceChar).reverse)

/-- Value of one hexadecimal digit, if the character is one. -/
def hexVal (c : Char) : Option Nat :=
  if '0' ≤ c ∧ c ≤ '9' then some (c.toNat - 48)
  else if 'a' ≤ c ∧ c ≤ 'f' then some (c.toNat - 87)
  else if 'A' ≤ c ∧ c ≤ 'F' then some (c.toNat - 55)
  else none

/-- Accumulate the longest run of leading hex digits (the way `strtol`
consumes its subject sequence); a non-digit stops the scan. -/
def hexDigits : List Char → Nat → Nat
  | [], acc => acc
  | c :: cs, acc =>
    match hexVal c with
    | some v => hexDigits cs (acc * 16 + v)
    | none => acc

/-- The digit part of `strtol(·, NULL, 16)` after the optional sign:
an optional `0x`/`0X` marker (consumed only when a hex digit follows),
then the longest run of hex digits; no digits at all yields 0. -/
def hexBody (cs : List Char) : Nat :=
  match cs with
  | '0' :: x :: rest =>
    if (x = 'x' ∨ x = 'X') ∧ (rest.head?.bind hexVal).isSome then hexDigits rest 0
    else hexDigits cs 0
  | _ => hexDigits cs 0

/-- C `strtol(s, NULL, 16)`: skip leading whitespace, optional sign,
optional `0x` marker, then the longest hex-digit run (0 when none). -/
def strtolHex (s : String) : Int :=
  match s.data.dropWhile isSpaceChar with
  | '-' :: rest => -(hexBody rest : Int)
  | '+' :: rest => (hexBody rest : Int)
  | rest => (hexBody rest : Int)

/-- `BLEOBDClient::parseRPM` (PID 0C).  Note: the length guard runs on the
raw reply, *before* `replace(" ", "")`. -/
def parseRPM (response : String) : Option ℚ :=
  if response.length < 8 then none
  else
    let r := stripSpaces response
    if startsWithA r "410C" then
      let a := strtolHex (substringA r 4 6)
      let b := strtolHex (substringA r 6 8)
      some (((a * 256 + b : ℤ) : ℚ) / 4)
    else none

/-- `BLEOBDClient::parseSpeed` (PID 0D). -/
def parseSpeed (response : String) : Option ℚ :=
  if response.length < 6 then none
  else
    let r := stripSpaces response
    if startsWithA r "410D" then
      some ((strtolHex (substringA r 4 6) : ℚ))
    else none

/-- `BLEOBDClient::parseTemperature` (PIDs 05 / 5C). -/
def parseTemperature (response : String) : Option ℚ :=
  if response.length < 6 then none
  else
    let r := stripSpaces response
    let pid := substringA r 2 4
    if pid ≠ "05" ∧ pid ≠ "5C" then none
    else some ((strtolHex (substringA r 4 6) : ℚ) - 40)

/-- `BLEOBDClient::parsePercentage` (PIDs 2F / 11 / 04): no PID check at all,
only the length guard. -/
def parsePercentage (response : String) : Option ℚ :=
  if response.length < 6 then none
  else
    let r := stripSpaces response
    some ((strtolHex (substringA r 4 6) : ℚ) * 100 / 255)

/-- `BLEOBDClient::parseAirflow` (PID 10). -/
def parseAirflow (response : String) : Option ℚ :=
  if response.length < 8 then none
  else
    let r := stripSpaces response
    if startsWithA r "4110" then
      let a := strtolHex (substringA r 4 6)
      let b := strtolHex (substringA r 6 8)
      some (((a * 256 + b : ℤ) : ℚ) / 100)
    else none

/-- `BLEOBDClient::parseVoltage`: a placeholder that unconditionally writes
`12.6` and reports success. -/
def parseVoltage (_response : String) : Option ℚ :=
  some (12.6 : ℚ)

/-! ## Client state model -/

/-- The parser a command slot dispatches to (the C++ slot stores a function
pointer; every slot is created by `setupOBDCommands` with one of these). -/
inductive PKind where
  | rpm | speed | temperature | percentage | airflow | voltage
  deriving Repr, DecidableEq

/-- Dispatch of the slot's parse-function pointer. -/
def applyParser : PKind → String → Option ℚ
  | .rpm, s => parseRPM s
  | .speed, s => parseSpeed s
  | .temperature, s => parseTemperature s
  | .percentage, s => parsePercentage s
  | .airflow, s => parseAirflow s
  | .voltage, s => parseVoltage s

/-- The telemetry field a slot's `targetVariable` pointer addresses. -/
inductive Target where
  | rpm | speed | coolantTemp | oilTemp | fuelLevel | throttlePos
  | engineLoad | airflowRate
  deriving Repr, DecidableEq

/-- `struct OBDData` (fields never written by the core — `boostPressure`,
`voltage`, `dtcCount`, `engineRunning` — are carried for fidelity). -/
structure OBDData where
  rpm : ℚ := 0
  speed : ℚ := 0
  coolantTemp : ℚ := 0
  oilTemp : ℚ := 0
  fuelLevel : ℚ := 0
  throttlePos : ℚ := 0
  engineLoad : ℚ := 0
  airflowRate : ℚ := 0
  boostPressure : ℚ := 0
  voltage : ℚ := 0
  dtcCount : Int := 0
  engineRunning : Bool := false
  lastUpdate : Nat := 0
  deriving Repr, DecidableEq

/-- Write through a slot's `targetVariable` pointer. -/
def setTarget (d : OBDData) (t : Target) (v : ℚ) : OBDData :=
  match t with
  | .rpm => { d with rpm := v }
  | .speed => { d with speed := v }
  | .coolantTemp => { d with coolantTemp := v }
  | .oilTemp => { d with oilTemp := v }
  | .fuelLevel => { d with fuelLevel := v }
  | .throttlePos => { d with throttlePos := v }
  | .engineLoad => { d with engineLoad := v }
  | .airflowRate => { d with airflowRate := v }

/-- `struct OBDCommand` (the unused `expectedResponse` field is dropped;
the `parseFunction`/`targetVariable` pointers are the `pkind`/`target`
tags, always populated by `addCommand`). -/
structure OBDCommand where
  command : String
  target : Target
  pkind : PKind
  timeout : Nat
  completed : Bool
  rawResponse : String
  sentTime : Nat
  deriving Repr, DecidableEq

/-- `enum ConnectionState`. -/
inductive ConnectionState where
  | DISCONNECTED | SCANNING | CONNECTING | INITIALIZING | CONNECTED | ERROR_STATE
  deriving Repr, DecidableEq

/-- `struct Statistics`. -/
structure Statistics where
  totalCommands : Nat := 0
  successfulCommands : Nat := 0
  failedCommands : Nat := 0
  averageResponseTime : Nat := 0
  connectionUptime : Nat := 0
  lastConnectionTime : Nat := 0
  reconnectAttempts : Nat := 0
  deriving Repr, DecidableEq

/-- The mutable state of a `BLEOBDClient` instance (field defaults are the
in-class initializers of `BLEOBDClient.h`).  `lastCommandCheck` is the
`static` local of `processCommandQueue`.  The display-pacing timestamps
`lastDataDisplay`/`lastStatsDisplay` and the debug/verbose flags gate
`Serial` printing only and are omitted, as are the raw BLE object
pointers (`pClient` is non-null whenever `deviceConnected` is set). -/
structure ClientState where
  deviceConnected : Bool := false
  deviceFound : Bool := false
  doConnect : Bool := false
  doScan : Bool := false
  connectionState : ConnectionState := .DISCONNECTED
  obdData : OBDData := {}
  stats : Statistics := {}
  commandQueue : List OBDCommand := []
  currentCommandIndex : Nat := 0
  lastCommandTime : Nat := 0
  waitingForResponse : Bool := false
  incomingData : String := ""
  deviceName : String := "OBD2_Simulator_BLE"
  autoReconnect : Bool := true
  defaultTimeout : Nat := 2000
  lastStateChange : Nat := 0
  scanStartTime : Nat := 0
  lastCommandCheck : Nat := 0
  deriving Repr, DecidableEq

/-- `BLEOBDClient::updateConnectionState`: idempotent; timestamps every
real change. -/
def updateConnectionState (s : ClientState) (now : Nat)
    (newState : ConnectionState) : ClientState :=
  if newState ≠ s.connectionState then
    { s with connectionState := newState, lastStateChange := now }
  else s

/-- `BLEOBDClient::startScan` (the BLE scan itself is a transport call). -/
def startScan (s : ClientState) (now : Nat) : ClientState :=
  { (if s.connectionState ≠ .SCANNING then
       updateConnectionState s now .SCANNING
     else s) with
    scanStartTime := now, doScan := false }

/-- `BLEOBDClient::resetCommandQueue`. -/
def resetCommandQueue (s : ClientState) : ClientState :=
  { s with commandQueue := [], currentCommandIndex := 0,
           waitingForResponse := false, incomingData := "" }

/-- `BLEOBDClient::addCommand`. -/
def addCommand (s : ClientState) (cmd : String) (tgt : Target) (pk : PKind) :
    ClientState :=
  { s with commandQueue := s.commandQueue ++
      [{ command := cmd, target := tgt, pkind := pk, timeout := s.defaultTimeout,
         completed := false, rawResponse := "", sentTime := 0 }] }

/-- `BLEOBDClient::setupOBDCommands`: the fixed PID set. -/
def setupOBDCommands (s : ClientState) : ClientState :=
  let s1 := addCommand s "010C" .rpm .rpm
  let s2 := addCommand s1 "010D" .speed .speed
  let s3 := addCommand s2 "0105" .coolantTemp .temperature
  let s4 := addCommand s3 "015C" .oilTemp .temperature
  let s5 := addCommand s4 "012F" .fuelLevel .percentage
  let s6 := addCommand s5 "0111" .throttlePos .percentage
  let s7 := addCommand s6 "0104" .engineLoad .percentage
  addCommand s7 "0110" .airflowRate .airflow

/-- `BLEOBDClient::initializeOBD`: INITIALIZING, reset the queue, send the
five AT setup commands (transport writes only), then CONNECTED. -/
def initializeOBD (s : ClientState) (now : Nat) : ClientState :=
  let s1 := updateConnectionState s now .INITIALIZING
  let s2 := resetCommandQueue s1
  updateConnectionState s2 now .CONNECTED

/-- The statistics/telemetry update of `processCommandQueue` applied to a
completed slot's raw response (`cmd.parseFunction` and
`cmd.targetVariable` are always non-null — see `addCommand`). -/
def applyResult (s : ClientState) (now : Nat) (cmd : OBDCommand) : ClientState :=
  if 0 < cmd.rawResponse.length ∧ startsWithA cmd.rawResponse "NO DATA" = false then
    match applyParser cmd.pkind cmd.rawResponse with
    | some v =>
      let responseTime := now - cmd.sentTime
      let newAvg := if s.stats.averageResponseTime = 0 then responseTime
                    else (s.stats.averageResponseTime + responseTime) / 2
      { s with stats := { s.stats with
                 successfulCommands := s.stats.successfulCommands + 1,
                 averageResponseTime := newAvg },
               obdData := { setTarget s.obdData cmd.target v with lastUpdate := now } }
    | none =>
      { s with stats := { s.stats with failedCommands := s.stats.failedCommands + 1 } }
  else
    { s with stats := { s.stats with failedCommands := s.stats.failedCommands + 1 } }

/-- First half of `processCommandQueue`: if the slot at the cursor is
completed, settle its response, advance the cursor (wrapping past the
end), and reset the old slot for reuse (`cmd` is a reference into the
old cursor position, so the reset hits the old slot).  `applyResult`
never touches the queue, so reading its length and setting into its
queue read the original one. -/
def processCompleted (s : ClientState) (now : Nat) : ClientState :=
  match s.commandQueue[s.currentCommandIndex]? with
  | some cmd =>
    if cmd.completed = true then
      { applyResult s now cmd with
        currentCommandIndex :=
          if s.currentCommandIndex + 1 ≥ (applyResult s now cmd).commandQueue.length then 0
          else s.currentCommandIndex + 1,
        commandQueue := (applyResult s now cmd).commandQueue.set s.currentCommandIndex
          { cmd with completed := false, rawResponse := "", sentTime := 0 } }
    else s
  | none => s

/-- Second half of `processCommandQueue`: send the cursor's command when no
command is waiting (the transport write itself has no state effect). -/
def trySend (s : ClientState) (now : Nat) : ClientState :=
  if s.waitingForResponse = false ∧ s.currentCommandIndex < s.commandQueue.length then
    match s.commandQueue[s.currentCommandIndex]? with
    | some cmd =>
      { s with waitingForResponse := true,
               lastCommandTime := now,
               commandQueue := s.commandQueue.set s.currentCommandIndex
                 { cmd with sentTime := now },
               stats := { s.stats with totalCommands := s.stats.totalCommands + 1 } }
    | none => s
  else s

/-- `BLEOBDClient::processCommandQueue`: rate-limited to one pass per
100 ms via the `static` check timestamp. -/
def processCommandQueue (s : ClientState) (now : Nat) : ClientState :=
  if now - s.lastCommandCheck < 100 then s
  else if s.commandQueue.isEmpty = true then { s with lastCommandCheck := now }
  else trySend (processCompleted { s with lastCommandCheck := now } now) now

/-- The complete response extracted from a buffer holding a prompt
character: `substring(0, indexOf('>'))` — everything before the first
`>` — then `trim()`. -/
def extractReply (buf : String) : String :=
  trimA (String.mk (buf.data.takeWhile fun c => c != '>'))

/-- The response-delivery conditional of `processIncomingData`: the reply
goes into the cursor's slot only while a command is waiting; otherwise it
is dropped. -/
def deliverReply (s : ClientState) (reply : String) : ClientState :=
  if s.waitingForResponse = true ∧ s.currentCommandIndex < s.commandQueue.length then
    match s.commandQueue[s.currentCommandIndex]? with
    | some cmd =>
      { s with commandQueue := s.commandQueue.set s.currentCommandIndex
                 { cmd with rawResponse := reply, completed := true },
               waitingForResponse := false }
    | none => s
  else s

/-- `BLEOBDClient::processIncomingData`: append the fragment; when the
buffer holds a prompt character `>`, extract the reply, deliver it while
a command is waiting, and clear the whole buffer. -/
def processIncomingData (s : ClientState) (data : String) : ClientState :=
  if (s.incomingData ++ data).data.contains '>' = true then
    { deliverReply s (extractReply (s.incomingData ++ data)) with incomingData := "" }
  else { s with incomingData := s.incomingData ++ data }

/-- `BLEOBDClient::handleTimeout`. -/
def handleTimeout (s : ClientState) : ClientState :=
  if s.currentCommandIndex < s.commandQueue.length then
    match s.commandQueue[s.currentCommandIndex]? with
    | some cmd =>
      { s with stats := { s.stats with failedCommands := s.stats.failedCommands + 1 },
               waitingForResponse := false,
               commandQueue := s.commandQueue.set s.currentCommandIndex
                 { cmd with completed := true, rawResponse := "TIMEOUT" } }
    | none => s
  else s

/-- `BLEOBDClient::getUptime`. -/
def getUptime (s : ClientState) (now : Nat) : Nat :=
  if s.deviceConnected = false then 0 else now - s.stats.lastConnectionTime

/-- `BLEOBDClient::getSuccessRate`. -/
def getSuccessRate (s : ClientState) : ℚ :=
  if s.stats.totalCommands = 0 then 0
  else (s.stats.successfulCommands * 100 : ℚ) / (s.stats.totalCommands : ℚ)

/-- `BLEOBDClient::disconnect` (the C++ guard `pClient && deviceConnected`
reduces to `deviceConnected`: `pClient` is created before
`deviceConnected` is ever set). -/
def disconnect (s : ClientState) (now : Nat) : ClientState :=
  if s.deviceConnected = true then
    updateConnectionState { s with deviceConnected := false } now .DISCONNECTED
  else s

/-- The uptime accumulation of `onDisconnect`:
`stats.connectionUptime += getUptime()`. -/
def accumulateUptime (s : ClientState) (now : Nat) : ClientState :=
  { s with stats := { s.stats with
      connectionUptime := s.stats.connectionUptime + getUptime s now } }

/-- The auto-reconnect scheduling at the end of `onDisconnect`. -/
def scheduleRescan (s : ClientState) : ClientState :=
  if s.autoReconnect = true then { s with doScan := true } else s

/-- `OBDClientCallbacks::onDisconnect` (link-loss callback).  Note the
source clears `deviceConnected` before reading `getUptime`. -/
def onDisconnect (s : ClientState) (now : Nat) : ClientState :=
  scheduleRescan (accumulateUptime
    (updateConnectionState { s with deviceConnected := false } now .DISCONNECTED) now)

/-- `OBDScanCallbacks::onResult`: `matched` is the outcome of the
service-UUID / device-name matching policy on the advertised device. -/
def onScanResult (s : ClientState) (matched : Bool) : ClientState :=
  if matched = true then
    { s with deviceFound := true, doConnect := true, doScan := false }
  else s

/-- The state effect of a successful `BLEOBDClient::connectToDevice`
(service discovery, characteristic lookup and notification subscription
are transport calls; on failure the client state is untouched). -/
def connectSuccess (s : ClientState) (now : Nat) : ClientState :=
  { s with deviceConnected := true,
           stats := { s.stats with lastConnectionTime := now } }

/-- The inner if/else of the first `loop` block: on a successful
`connectToDevice` (whose state effect is `connectSuccess`) go CONNECTED
and run `initializeOBD` / `setupOBDCommands`; on failure go ERROR_STATE
and schedule a rescan. -/
def connectOutcome (s : ClientState) (now : Nat) (connectOk : Bool) : ClientState :=
  if connectOk = true then
    setupOBDCommands (initializeOBD
      (updateConnectionState (connectSuccess s now) now .CONNECTED) now)
  else
    { updateConnectionState s now .ERROR_STATE with doScan := true }

/-- First block of `BLEOBDClient::loop`: the pending-connection handshake.
`connectOk` is the result of the external `connectToDevice` attempt when
one is made; `doConnect` is cleared either way. -/
def loopConnectPhase (s : ClientState) (now : Nat) (connectOk : Bool) : ClientState :=
  if s.doConnect = true ∧ s.deviceFound = true then
    { connectOutcome (updateConnectionState s now .CONNECTING) now connectOk with
      doConnect := false }
  else s

/-- Second block of `loop`: `if (doScan && !deviceConnected) startScan();`. -/
def loopScanPhase (s : ClientState) (now : Nat) : ClientState :=
  if s.doScan = true ∧ s.deviceConnected = false then startScan s now else s

/-- Third block of `loop`: the auto-reconnect cooldown path. -/
def loopReconnectPhase (s : ClientState) (now : Nat) : ClientState :=
  if s.deviceConnected = false ∧ s.autoReconnect = true ∧
     (s.connectionState = .DISCONNECTED ∨ s.connectionState = .ERROR_STATE) ∧
     10000 < now - s.lastStateChange then
    startScan { s with stats := { s.stats with
                  reconnectAttempts := s.stats.reconnectAttempts + 1 } } now
  else s

/-- Fourth block of `loop`: drive the command queue while connected. -/
def loopProcessPhase (s : ClientState) (now : Nat) : ClientState :=
  if s.deviceConnected = true ∧ s.connectionState = .CONNECTED then
    processCommandQueue s now
  else s

/-- Fifth block of `loop`: the command-timeout check. -/
def loopTimeoutPhase (s : ClientState) (now : Nat) : ClientState :=
  if s.waitingForResponse = true ∧ s.defaultTimeout < now - s.lastCommandTime then
    handleTimeout s
  else s

/-- `BLEOBDClient::loop`: the five state-relevant blocks in source order
(the two display blocks and the trailing `delay(50)` print/pause only
and are omitted). -/
def loop (s : ClientState) (now : Nat) (connectOk : Bool) : ClientState :=
  loopTimeoutPhase
    (loopProcessPhase
      (loopReconnectPhase
        (loopScanPhase (loopConnectPhase s now connectOk) now) now) now) now

/-- `BLEOBDClient::begin` (BLE stack setup is external; the client state
effect is the device name, the SCANNING transition and the first scan). -/
def beginClient (s : ClientState) (name : String) (now : Nat) : ClientState :=
  startScan (updateConnectionState { s with deviceName := name } now .SCANNING) now

/-- `BLEOBDClient::setTimeout`. -/
def setTimeout (s : ClientState) (t : Nat) : ClientState :=
  { s with defaultTimeout := t }

/-- `BLEOBDClient::setAutoReconnect`. -/
def setAutoReconnect (s : ClientState) (b : Bool) : ClientState :=
  { s with autoReconnect := b }

/-- A freshly constructed client (the in-class initializers). -/
def initState : ClientState := {}

/-- One externally triggered transition of the client: a `loop()` poll, a
BLE notification fragment, a scan result, a link-loss callback, or a call
of one of the public methods. -/
inductive Step : ClientState → ClientState → Prop where
  | beginStep (s : ClientState) (name : String) (now : Nat) :
      Step s (beginClient s name now)
  | loopStep (s : ClientState) (now : Nat) (connectOk : Bool) :
      Step s (loop s now connectOk)
  | notifyStep (s : ClientState) (data : String) :
      Step s (processIncomingData s data)
  | disconnectStep (s : ClientState) (now : Nat) :
      Step s (disconnect s now)
  | linkLossStep (s : ClientState) (now : Nat) :
      Step s (onDisconnect s now)
  | scanResultStep (s : ClientState) (matched : Bool) :
      Step s (onScanResult s matched)
  | initOBDStep (s : ClientState) (now : Nat) :
      Step s (initializeOBD s now)
  | setupStep (s : ClientState) :
      Step s (setupOBDCommands s)
  | setTimeoutStep (s : ClientState) (t : Nat) :
      Step s (setTimeout s t)
  | setAutoReconnectStep (s : ClientState) (b : Bool) :
      Step s (setAutoReconnect s b)

/-- States the client can be in after any sequence of polls and callbacks. -/
def Reachable (s : ClientState) : Prop :=
  Relation.ReflTransGen Step initState s

/-! ## The single-outstanding-request invariant -/

/-- A slot is in flight: not completed, with its sent-at stamp set. -/
def InFlight (c : OBDCommand) : Prop :=
  c.completed = false ∧ c.sentTime ≠ 0

/-- Inductive invariant: no slot away from the cursor is ever in flight. -/
def Inv (s : ClientState) : Prop :=
  ∀ (i : Nat) (c : OBDCommand),
    s.commandQueue[i]? = some c → i ≠ s.currentCommandIndex → ¬ InFlight c

/-- At most one slot of the queue is in flight. -/
def AtMostOneInFlight (s : ClientState) : Prop :=
  ∀ (i j : Nat) (ci cj : OBDCommand),
    s.commandQueue[i]? = some ci → s.commandQueue[j]? = some cj →
    InFlight ci → InFlight cj → i = j

/-! ## Concrete states for scenario checks -/

/-- A connected client whose last state change happened at t = 1000 ms. -/
def c2State : ClientState :=
  { initState with
    deviceConnected := true
    connectionState := .CONNECTED
    lastStateChange := 1000 }

/-- An engine-speed slot sent at t = 500 ms and still unanswered. -/
def rpmSlotInFlight : OBDCommand :=
  { command := "010C", target := .rpm, pkind := .rpm, timeout := 2000,
    completed := false, rawResponse := "", sentTime := 500 }

/-- A fresh vehicle-speed slot, queued behind the in-flight one. -/
def speedSlotIdle : OBDCommand :=
  { command := "010D", target := .speed, pkind := .speed, timeout := 2000,
    completed := false, rawResponse := "", sentTime := 0 }

/-- A fuel-level (percentage) slot sent at t = 500 ms and still unanswered. -/
def percSlotInFlight : OBDCommand :=
  { command := "012F", target := .fuelLevel, pkind := .percentage, timeout := 2000,
    completed := false, rawResponse := "", sentTime := 500 }

/-- A connected client with one command in flight. -/
def c3State : ClientState :=
  { initState with
    deviceConnected := true
    connectionState := .CONNECTED
    commandQueue := [rpmSlotInFlight]
    currentCommandIndex := 0
    waitingForResponse := true
    lastCommandTime := 500 }

/-- A connected client with one command in flight and a partial reply
fragment already buffered. -/
def c6State : ClientState :=
  { initState with
    deviceConnected := true
    connectionState := .CONNECTED
    commandQueue := [rpmSlotInFlight]
    currentCommandIndex := 0
    waitingForResponse := true
    lastCommandTime := 500
    incomingData := "41" }

/-- A connected client with the engine-speed command in flight and a second
slot queued, last queue pass at t = 400 ms. -/
def c7State : ClientState :=
  { initState with
    deviceConnected := true
    connectionState := .CONNECTED
    commandQueue := [rpmSlotInFlight, speedSlotIdle]
    currentCommandIndex := 0
    waitingForResponse := true
    lastCommandTime := 500
    lastCommandCheck := 400 }

/-- A connected client with a percentage-parser command in flight. -/
def c9State : ClientState :=
  { initState with
    deviceConnected := true
    connectionState := .CONNECTED
    commandQueue := [percSlotInFlight]
    currentCommandIndex := 0
    waitingForResponse := true
    lastCommandTime := 500
    lastCommandCheck := 400 }

/-! ## Parser evaluation lemmas and sanity checks -/

/-- Evaluation scheme for `parseRPM` on a passing input: the string layer is
discharged by `decide`, the `ℚ` value is left to arithmetic tactics. -/
lemma parseRPM_eval (s : String) (a b : ℤ) (h8 : ¬ s.length < 8)
    (hpre : startsWithA (stripSpaces s) "410C" = true)
    (ha : strtolHex (substringA (stripSpaces s) 4 6) = a)
    (hb : strtolHex (substringA (stripSpaces s) 6 8) = b) :
    parseRPM s = some (((a * 256 + b : ℤ) : ℚ) / 4) := by
  simp [parseRPM, h8, hpre, ha, hb]

/-- Evaluation scheme for `parseTemperature` on a passing input. -/
lemma parseTemperature_eval (s : String) (v : ℤ) (h6 : ¬ s.length < 6)
    (hpid : ¬ (substringA (stripSpaces s) 2 4 ≠ "05" ∧
               substringA (stripSpaces s) 2 4 ≠ "5C"))
    (hv : strtolHex (substringA (stripSpaces s) 4 6) = v) :
    parseTemperature s = some ((v : ℚ) - 40) := by
  simp only [parseTemperature, if_neg h6, if_neg hpid, hv]

/-- Evaluation scheme for `parsePercentage` on a passing input. -/
lemma parsePercentage_eval (s : String) (v : ℤ) (h6 : ¬ s.length < 6)
    (hv : strtolHex (substringA (stripSpaces s) 4 6) = v) :
    parsePercentage s = some ((v : ℚ) * 100 / 255) := by
  simp only [parsePercentage, if_neg h6, hv]

/-- Evaluation scheme for `parseAirflow` on a passing input. -/
lemma parseAirflow_eval (s : String) (a b : ℤ) (h8 : ¬ s.length < 8)
    (hpre : startsWithA (stripSpaces s) "4110" = true)
    (ha : strtolHex (substringA (stripSpaces s) 4 6) = a)
    (hb : strtolHex (substringA (stripSpaces s) 6 8) = b) :
    parseAirflow s = some (((a * 256 + b : ℤ) : ℚ) / 100) := by
  simp [parseAirflow, h8, hpre, ha, hb]

example : parseRPM "410C1AF8" = some 1726 := by
  rw [parseRPM_eval "410C1AF8" 26 248 (by decide) (by decide) (by decide) (by decide)]
  norm_num
example : parseSpeed "410D50" = some 80 := by decide
example : parseTemperature "410564" = some 60 := by
  rw [parseTemperature_eval "410564" 100 (by decide) (by decide) (by decide)]
  norm_num
example : parsePercentage "01117F" = some (12700 / 255) := by
  rw [parsePercentage_eval "01117F" 127 (by decide) (by decide)]
  norm_num
example : parseRPM "41 0C 1A" = some 1664 := by
  rw [parseRPM_eval "41 0C 1A" 26 0 (by decide) (by decide) (by decide) (by decide)]
  norm_num
example : parseRPM "410CZZZZ" = some 0 := by
  rw [parseRPM_eval "410CZZZZ" 0 0 (by decide) (by decide) (by decide) (by decide)]
  norm_num
example : parsePercentage "TIMEOUT" = some 0 := by
  rw [parsePercentage_eval "TIMEOUT" 0 (by decide) (by decide)]
  norm_num
example : parseTemperature "TIMEOUT" = none := by decide
example : parseSpeed "TIMEOUT" = none := by decide
example : parseRPM "TIMEOUT" = none := by decide
example : parseAirflow "TIMEOUT" = none := by decide
example : (12.6 : ℚ) = 63 / 5 := by norm_num


lemma Inv.of_frame {s t : ClientState} (h : Inv s)
    (hq : t.commandQueue = s.commandQueue)
    (hc : t.currentCommandIndex = s.currentCommandIndex) : Inv t := by
  intro i c hget hne
  rw [hq] at hget
  rw [hc] at hne
  exact h i c hget hne

lemma Inv.of_nil {t : ClientState} (hq : t.commandQueue = []) : Inv t := by
  intro i c hget _
  rw [hq] at hget
  simp at hget

lemma updateConnectionState_frame (s : ClientState) (now : Nat) (st : ConnectionState) :
    (updateConnectionState s now st).commandQueue = s.commandQueue ∧
    (updateConnectionState s now st).currentCommandIndex = s.currentCommandIndex ∧
    (updateConnectionState s now st).waitingForResponse = s.waitingForResponse ∧
    (updateConnectionState s now st).deviceConnected = s.deviceConnected ∧
    (updateConnectionState s now st).incomingData = s.incomingData := by
  unfold updateConnectionState
  split <;> exact ⟨rfl, rfl, rfl, rfl, rfl⟩

lemma startScan_frame (s : ClientState) (now : Nat) :
    (startScan s now).commandQueue = s.commandQueue ∧
    (startScan s now).currentCommandIndex = s.currentCommandIndex ∧
    (startScan s now).connectionState = .SCANNING := by
  unfold startScan
  split
  · next hne =>
    refine ⟨(updateConnectionState_frame s now _).1,
      (updateConnectionState_frame s now _).2.1, ?_⟩
    show (updateConnectionState s now .SCANNING).connectionState = .SCANNING
    unfold updateConnectionState
    rw [if_pos (Ne.symm hne)]
  · next heq =>
    exact ⟨rfl, rfl, not_not.mp heq⟩

lemma applyResult_frame (s : ClientState) (now : Nat) (cmd : OBDCommand) :
    (applyResult s now cmd).commandQueue = s.commandQueue ∧
    (applyResult s now cmd).currentCommandIndex = s.currentCommandIndex ∧
    (applyResult s now cmd).waitingForResponse = s.waitingForResponse ∧
    (applyResult s now cmd).stats.totalCommands = s.stats.totalCommands ∧
    (applyResult s now cmd).lastCommandCheck = s.lastCommandCheck := by
  unfold applyResult
  split
  · split <;> exact ⟨rfl, rfl, rfl, rfl, rfl⟩
  · exact ⟨rfl, rfl, rfl, rfl, rfl⟩

lemma inv_updateConnectionState {s : ClientState} (now : Nat) (st : ConnectionState)
    (h : Inv s) : Inv (updateConnectionState s now st) :=
  h.of_frame (updateConnectionState_frame s now st).1 (updateConnectionState_frame s now st).2.1

lemma inv_startScan {s : ClientState} (now : Nat) (h : Inv s) : Inv (startScan s now) :=
  h.of_frame (startScan_frame s now).1 (startScan_frame s now).2.1

lemma inv_addCommand {s : ClientState} (cmd : String) (tgt : Target) (pk : PKind)
    (h : Inv s) : Inv (addCommand s cmd tgt pk) := by
  intro i c hget hne
  simp only [addCommand] at hget hne
  by_cases hi : i < s.commandQueue.length
  · rw [List.getElem?_append_left hi] at hget
    exact h i c hget hne
  · rw [List.getElem?_append_right (Nat.le_of_not_lt hi)] at hget
    cases hj : i - s.commandQueue.length with
    | zero =>
      rw [hj] at hget
      simp only [List.getElem?_cons_zero, Option.some.injEq] at hget
      subst hget
      simp [InFlight]
    | succ n =>
      rw [hj] at hget
      simp at hget

lemma inv_setupOBDCommands {s : ClientState} (h : Inv s) : Inv (setupOBDCommands s) := by
  unfold setupOBDCommands
  exact inv_addCommand _ _ _ (inv_addCommand _ _ _ (inv_addCommand _ _ _
    (inv_addCommand _ _ _ (inv_addCommand _ _ _ (inv_addCommand _ _ _
    (inv_addCommand _ _ _ (inv_addCommand _ _ _ h)))))))

lemma initializeOBD_queue (s : ClientState) (now : Nat) :
    (initializeOBD s now).commandQueue = [] := by
  unfold initializeOBD
  rw [(updateConnectionState_frame _ _ _).1]
  rfl

lemma inv_initializeOBD (s : ClientState) (now : Nat) : Inv (initializeOBD s now) :=
  Inv.of_nil (initializeOBD_queue s now)

lemma inv_resetCommandQueue (s : ClientState) : Inv (resetCommandQueue s) :=
  Inv.of_nil rfl

lemma inv_handleTimeout {s : ClientState} (h : Inv s) : Inv (handleTimeout s) := by
  unfold handleTimeout
  split
  · split
    · intro i c hget hne
      rw [List.getElem?_set_ne (Ne.symm hne)] at hget
      exact h i c hget hne
    · exact h
  · exact h

lemma inv_deliverReply {s : ClientState} (reply : String) (h : Inv s) :
    Inv (deliverReply s reply) := by
  unfold deliverReply
  split
  · split
    · intro i c hget hne
      rw [List.getElem?_set_ne (Ne.symm hne)] at hget
      exact h i c hget hne
    · exact h
  · exact h

lemma inv_processIncomingData {s : ClientState} (data : String)
    (h : Inv s) : Inv (processIncomingData s data) := by
  unfold processIncomingData
  split
  · exact (inv_deliverReply _ h).of_frame rfl rfl
  · exact h.of_frame rfl rfl

lemma inv_trySend {s : ClientState} (now : Nat) (h : Inv s) : Inv (trySend s now) := by
  unfold trySend
  split
  · split
    · intro i c hget hne
      rw [List.getElem?_set_ne (Ne.symm hne)] at hget
      exact h i c hget hne
    · exact h
  · exact h

lemma inv_processCompleted {s : ClientState} (now : Nat) (h : Inv s) :
    Inv (processCompleted s now) := by
  unfold processCompleted
  split
  next cmd hcmd =>
    split
    · intro i c hget hne
      rw [(applyResult_frame s now cmd).1] at hget
      by_cases hic : i = s.currentCommandIndex
      · rw [hic] at hget
        have hlt : s.currentCommandIndex < s.commandQueue.length := by
          rcases List.getElem?_eq_some_iff.mp hcmd with ⟨hl, _⟩
          exact hl
        rw [List.getElem?_set_self hlt] at hget
        cases hget
        simp [InFlight]
      · rw [List.getElem?_set_ne (fun hh => hic hh.symm)] at hget
        exact h i c hget hic
    · exact h
  next => exact h

lemma inv_processCommandQueue {s : ClientState} (now : Nat) (h : Inv s) :
    Inv (processCommandQueue s now) := by
  unfold processCommandQueue
  split
  · exact h
  · split
    · exact h.of_frame rfl rfl
    · exact inv_trySend now (inv_processCompleted now (h.of_frame rfl rfl))

lemma inv_connectOutcome {s : ClientState} (now : Nat) (ok : Bool) (h : Inv s) :
    Inv (connectOutcome s now ok) := by
  unfold connectOutcome
  split
  · exact inv_setupOBDCommands (inv_initializeOBD _ now)
  · exact (inv_updateConnectionState now _ h).of_frame rfl rfl

lemma inv_loopConnectPhase {s : ClientState} (now : Nat) (ok : Bool) (h : Inv s) :
    Inv (loopConnectPhase s now ok) := by
  unfold loopConnectPhase
  split
  · exact (inv_connectOutcome now ok (inv_updateConnectionState now _ h)).of_frame rfl rfl
  · exact h

lemma inv_loopScanPhase {s : ClientState} (now : Nat) (h : Inv s) :
    Inv (loopScanPhase s now) := by
  unfold loopScanPhase
  split
  · exact inv_startScan now h
  · exact h

lemma inv_loopReconnectPhase {s : ClientState} (now : Nat) (h : Inv s) :
    Inv (loopReconnectPhase s now) := by
  unfold loopReconnectPhase
  split
  · exact inv_startScan now (h.of_frame rfl rfl)
  · exact h

lemma inv_loopProcessPhase {s : ClientState} (now : Nat) (h : Inv s) :
    Inv (loopProcessPhase s now) := by
  unfold loopProcessPhase
  split
  · exact inv_processCommandQueue now h
  · exact h

lemma inv_loopTimeoutPhase {s : ClientState} (now : Nat) (h : Inv s) :
    Inv (loopTimeoutPhase s now) := by
  unfold loopTimeoutPhase
  split
  · exact inv_handleTimeout h
  · exact h

lemma inv_loop {s : ClientState} (now : Nat) (ok : Bool) (h : Inv s) :
    Inv (loop s now ok) :=
  inv_loopTimeoutPhase now (inv_loopProcessPhase now (inv_loopReconnectPhase now
    (inv_loopScanPhase now (inv_loopConnectPhase now ok h))))

lemma inv_beginClient {s : ClientState} (name : String) (now : Nat) (h : Inv s) :
    Inv (beginClient s name now) :=
  inv_startScan now (inv_updateConnectionState now _ (h.of_frame rfl rfl))

lemma inv_disconnect {s : ClientState} (now : Nat) (h : Inv s) :
    Inv (disconnect s now) := by
  unfold disconnect
  split
  · exact inv_updateConnectionState now _ (h.of_frame rfl rfl)
  · exact h

lemma inv_scheduleRescan {s : ClientState} (h : Inv s) : Inv (scheduleRescan s) := by
  unfold scheduleRescan
  split
  · exact h.of_frame rfl rfl
  · exact h

lemma inv_onDisconnect {s : ClientState} (now : Nat) (h : Inv s) :
    Inv (onDisconnect s now) := by
  unfold onDisconnect
  apply inv_scheduleRescan
  refine Inv.of_frame (inv_updateConnectionState now _ ?_) rfl rfl
  exact h.of_frame rfl rfl

lemma inv_onScanResult {s : ClientState} (matched : Bool) (h : Inv s) :
    Inv (onScanResult s matched) := by
  unfold onScanResult
  split
  · exact h.of_frame rfl rfl
  · exact h

/-- Every externally triggered transition preserves the invariant. -/
lemma inv_step {s t : ClientState} (hstep : Step s t) (h : Inv s) : Inv t := by
  cases hstep with
  | beginStep name now => exact inv_beginClient name now h
  | loopStep now ok => exact inv_loop now ok h
  | notifyStep data => exact inv_processIncomingData data h
  | disconnectStep now => exact inv_disconnect now h
  | linkLossStep now => exact inv_onDisconnect now h
  | scanResultStep matched => exact inv_onScanResult matched h
  | initOBDStep now => exact inv_initializeOBD _ now
  | setupStep => exact inv_setupOBDCommands h
  | setTimeoutStep t => exact h.of_frame rfl rfl
  | setAutoReconnectStep b => exact h.of_frame rfl rfl

lemma inv_initState : Inv initState :=
  Inv.of_nil rfl

lemma inv_reachable {s : ClientState} (h : Reachable s) : Inv s := by
  induction h with
  | refl => exact inv_initState
  | tail _ hstep ih => exact inv_step hstep ih

lemma Inv.atMostOne {s : ClientState} (h : Inv s) : AtMostOneInFlight s := by
  intro i j ci cj hi hj hfi hfj
  by_contra hne
  rcases eq_or_ne i s.currentCommandIndex with hic | hic
  · exact h j cj hj (by omega) hfj
  · exact h i ci hi hic hfi

/-- C1: for every sequence of `loop` / `processCommandQueue` /
`processIncomingData` / `handleTimeout` invocations (and all other client
entry points), at most one command slot is in flight at any time: at most
one slot has `completed = false` with its sent-at stamp set — a new
command is sent only when `waitingForResponse` is clear, and delivering
or timing out a response completes the slot before the next send. -/
theorem c1_single_command_in_flight (s : ClientState) (h : Reachable s) :
    AtMostOneInFlight s :=
  (inv_reachable h).atMostOne

theorem c1_single_command_in_flight_witness :
    AtMostOneInFlight (loop (onScanResult initState true) 200 true) :=
  c1_single_command_in_flight _
    (Relation.ReflTransGen.tail
      (Relation.ReflTransGen.single (Step.scanResultStep initState true))
      (Step.loopStep (onScanResult initState true) 200 true))

/-! ## C2: reconnect cooldown -/

lemma handleTimeout_connectionState (s : ClientState) :
    (handleTimeout s).connectionState = s.connectionState := by
  unfold handleTimeout
  split
  · split <;> rfl
  · rfl

/-- C2 counterexample: after a link loss at t = 2000 ms (last state change
t = 2000 ms), the very next `loop` poll at t = 2100 ms already starts a
scan — the `doScan` flag set by `onDisconnect` bypasses the 10,000 ms
cooldown entirely. -/
theorem c2_scan_before_cooldown :
    (onDisconnect c2State 2000).connectionState = .DISCONNECTED ∧
    (onDisconnect c2State 2000).lastStateChange = 2000 ∧
    (loop (onDisconnect c2State 2000) 2100 false).connectionState = .SCANNING := by
  decide

/-- C2 (amended): the 10,000 ms cooldown since the last state change gates
only the fallback auto-reconnect path of `loop` — when no `doScan` rescan
is pending and no connection handshake is in progress, a client in
Disconnected or Error transitions to Scanning only once the cooldown has
elapsed.  (A pending `doScan` — set by link loss with auto-reconnect, or
by a failed connect attempt — starts a scan on the next poll no matter
how recent the last state change was.) -/
theorem c2_cooldown_gates_fallback_only (s : ClientState) (now : Nat) (ok : Bool)
    (hstate : s.connectionState = .DISCONNECTED ∨ s.connectionState = .ERROR_STATE)
    (hnoscan : s.doScan = false)
    (hnoconn : ¬ (s.doConnect = true ∧ s.deviceFound = true))
    (hscan : (loop s now ok).connectionState = .SCANNING) :
    10000 < now - s.lastStateChange := by
  unfold loop at hscan
  rw [show loopConnectPhase s now ok = s by
        unfold loopConnectPhase; rw [if_neg hnoconn]] at hscan
  rw [show loopScanPhase s now = s by
        unfold loopScanPhase; rw [if_neg (by simp [hnoscan])]] at hscan
  by_cases hcool : 10000 < now - s.lastStateChange
  · exact hcool
  · exfalso
    rw [show loopReconnectPhase s now = s by
          unfold loopReconnectPhase
          rw [if_neg (fun hh => hcool hh.2.2.2)]] at hscan
    rw [show loopProcessPhase s now = s by
          unfold loopProcessPhase
          rw [if_neg (fun hh => by
            rcases hstate with h1 | h1 <;> rw [h1] at hh <;>
              exact ConnectionState.noConfusion hh.2)]] at hscan
    have ht : (loopTimeoutPhase s now).connectionState = s.connectionState := by
      unfold loopTimeoutPhase
      split
      · exact handleTimeout_connectionState s
      · rfl
    rw [ht] at hscan
    rcases hstate with h1 | h1 <;> rw [h1] at hscan <;>
      exact ConnectionState.noConfusion hscan

theorem c2_cooldown_gates_fallback_only_witness :
    10000 < 20000 - initState.lastStateChange :=
  c2_cooldown_gates_fallback_only initState 20000 false (Or.inl rfl) rfl
    (by decide) (by decide)

/-! ## C3: disconnect and the in-flight state -/

/-- C3 counterexample: with a command in flight, calling `disconnect` (or
receiving the link-loss callback) leaves `waitingForResponse` set and the
slot's sent-at stamp in place — the in-flight state and queue are not
cleared. -/
theorem c3_disconnect_leaves_waiting :
    (disconnect c3State 1000).waitingForResponse = true ∧
    (disconnect c3State 1000).commandQueue = [rpmSlotInFlight] ∧
    (onDisconnect c3State 1000).waitingForResponse = true ∧
    (onDisconnect c3State 1000).commandQueue = [rpmSlotInFlight] := by
  decide

/-- C3 (amended): `disconnect` only tears down the transport link — it
clears `deviceConnected` and goes to DISCONNECTED, is idempotent, and
leaves the command queue, the waiting flag and the receive buffer exactly
as they were; the queue and in-flight state are cleared only by
`resetCommandQueue`, which runs inside `initializeOBD` on the next
(re)connection. -/
theorem c3_disconnect_scope (s : ClientState) (now now2 : Nat) :
    (disconnect s now).deviceConnected = false ∧
    (disconnect s now).commandQueue = s.commandQueue ∧
    (disconnect s now).waitingForResponse = s.waitingForResponse ∧
    (disconnect s now).incomingData = s.incomingData ∧
    disconnect (disconnect s now) now2 = disconnect s now ∧
    (resetCommandQueue s).commandQueue = [] ∧
    (resetCommandQueue s).waitingForResponse = false ∧
    (resetCommandQueue s).incomingData = "" ∧
    (initializeOBD s now).commandQueue = [] ∧
    (initializeOBD s now).waitingForResponse = false := by
  have hd : ∀ (t : ClientState) (n : Nat),
      (disconnect t n).deviceConnected = false ∧
      (disconnect t n).commandQueue = t.commandQueue ∧
      (disconnect t n).waitingForResponse = t.waitingForResponse ∧
      (disconnect t n).incomingData = t.incomingData := by
    intro t n
    unfold disconnect
    split
    · exact ⟨(updateConnectionState_frame _ _ _).2.2.2.1,
        (updateConnectionState_frame _ _ _).1,
        (updateConnectionState_frame _ _ _).2.2.1,
        (updateConnectionState_frame _ _ _).2.2.2.2⟩
    · next hdc =>
      have hdc' : t.deviceConnected = false := by
        cases h : t.deviceConnected
        · rfl
        · exact absurd h hdc
      exact ⟨hdc', rfl, rfl, rfl⟩
  have hnoop : ∀ (t : ClientState) (n : Nat),
      t.deviceConnected = false → disconnect t n = t := by
    intro t n h
    unfold disconnect
    rw [if_neg (by simp [h])]
  refine ⟨(hd s now).1, (hd s now).2.1, (hd s now).2.2.1, (hd s now).2.2.2,
    hnoop _ now2 (hd s now).1, rfl, rfl, rfl, initializeOBD_queue s now, ?_⟩
  unfold initializeOBD
  rw [(updateConnectionState_frame _ _ _).2.2.1]
  rfl

/-! ## C4: malformed hex in data-byte fields -/

/-- C4 counterexample: non-hex characters in the data-byte fields are not
rejected — `strtol` silently decodes them as 0 and the parsers report
success, contradicting fail-closed behaviour for malformed hex. -/
theorem c4_nonhex_accepted :
    parseRPM "410CZZZZ" = some 0 ∧ parsePercentage "0111ZZ" = some 0 := by
  constructor
  · rw [parseRPM_eval "410CZZZZ" 0 0 (by decide) (by decide) (by decide) (by decide)]
    norm_num
  · rw [parsePercentage_eval "0111ZZ" 0 (by decide) (by decide)]
    norm_num

/-- C4 (amended): each parser fails exactly on its length / prefix / PID
guard and never on the content of the data-byte fields: non-hex characters
there are not detected (`strtol` decodes the longest valid prefix, 0 when
none) and the parser succeeds with that value; no parser ever raises. -/
theorem c4_parsers_validate_shape_only :
    (∀ r : String, parseRPM r = none ↔
      r.length < 8 ∨ startsWithA (stripSpaces r) "410C" = false) ∧
    (∀ r : String, parseSpeed r = none ↔
      r.length < 6 ∨ startsWithA (stripSpaces r) "410D" = false) ∧
    (∀ r : String, parseTemperature r = none ↔
      r.length < 6 ∨ (substringA (stripSpaces r) 2 4 ≠ "05" ∧
                      substringA (stripSpaces r) 2 4 ≠ "5C")) ∧
    (∀ r : String, parsePercentage r = none ↔ r.length < 6) ∧
    (∀ r : String, parseAirflow r = none ↔
      r.length < 8 ∨ startsWithA (stripSpaces r) "4110" = false) := by
  refine ⟨?_, ?_, ?_, ?_, ?_⟩
  · intro r
    simp only [parseRPM]
    split
    · next h8 => simp [h8]
    · next h8 =>
      split
      · next hp => simp [h8, hp]
      · next hp =>
        rw [Bool.not_eq_true] at hp
        simp [h8, hp]
  · intro r
    simp only [parseSpeed]
    split
    · next h6 => simp [h6]
    · next h6 =>
      split
      · next hp => simp [h6, hp]
      · next hp =>
        rw [Bool.not_eq_true] at hp
        simp [h6, hp]
  · intro r
    simp only [parseTemperature]
    split
    · next h6 => simp [h6]
    · next h6 =>
      split
      · next hpid => simp [h6, hpid]
      · next hpid => simp [h6, hpid]
  · intro r
    simp only [parsePercentage]
    split
    · next h6 => simp [h6]
    · next h6 => simp [h6]
  · intro r
    simp only [parseAirflow]
    split
    · next h8 => simp [h8]
    · next h8 =>
      split
      · next hp => simp [h8, hp]
      · next hp =>
        rw [Bool.not_eq_true] at hp
        simp [h8, hp]

/-! ## C5: length guard runs on the raw reply -/

/-- C5 counterexample: `"41 0C 1A"` has raw length 8 but space-stripped
length 6; the length guard passes (it runs before space stripping), the
missing data byte decodes as 0, and the parsers return a value instead of
failing — 1664.0 for `parseRPM`, 66.56 for `parseAirflow` on the
analogous input. -/
theorem c5_stripped_short_reply_parses :
    parseRPM "41 0C 1A" = some 1664 ∧ parseAirflow "41 10 1A" = some (1664 / 25) := by
  constructor
  · rw [parseRPM_eval "41 0C 1A" 26 0 (by decide) (by decide) (by decide) (by decide)]
    norm_num
  · rw [parseAirflow_eval "41 10 1A" 26 0 (by decide) (by decide) (by decide) (by decide)]
    norm_num

/-- C5 (amended): the `length ≥ 8` precondition of `parseRPM` and
`parseAirflow` is evaluated on the raw reply, before space stripping: any
reply of raw length < 8 fails, but a reply of raw length ≥ 8 whose
stripped form is shorter than 8 (such as `"41 0C 1A"`) is not rejected —
its missing data-byte substrings decode as 0 via `strtol`. -/
theorem c5_raw_length_precondition :
    (∀ r : String, r.length < 8 → parseRPM r = none) ∧
    (∀ r : String, r.length < 8 → parseAirflow r = none) ∧
    parseRPM "41 0C 1A" = some 1664 := by
  refine ⟨?_, ?_, ?_⟩
  · intro r h
    simp only [parseRPM]
    rw [if_pos h]
  · intro r h
    simp only [parseAirflow]
    rw [if_pos h]
  · rw [parseRPM_eval "41 0C 1A" 26 0 (by decide) (by decide) (by decide) (by decide)]
    norm_num

theorem c5_raw_length_precondition_witness :
    parseRPM "410C1A" = none ∧ parseAirflow "41101A" = none :=
  ⟨c5_raw_length_precondition.1 "410C1A" (by decide),
   c5_raw_length_precondition.2.1 "41101A" (by decide)⟩

/-! ## C6: response framing and delivery -/

lemma deliverReply_deliver {s : ClientState} (reply : String)
    (hw : s.waitingForResponse = true)
    (hlt : s.currentCommandIndex < s.commandQueue.length) :
    ∃ cmd, s.commandQueue[s.currentCommandIndex]? = some cmd ∧
      deliverReply s reply =
        { s with commandQueue := s.commandQueue.set s.currentCommandIndex
                   { cmd with rawResponse := reply, completed := true },
                 waitingForResponse := false } := by
  unfold deliverReply
  rw [if_pos ⟨hw, hlt⟩]
  cases hq : s.commandQueue[s.currentCommandIndex]? with
  | none =>
    rw [List.getElem?_eq_none_iff] at hq
    omega
  | some cmd => exact ⟨cmd, rfl, rfl⟩

lemma deliverReply_drop {s : ClientState} (reply : String)
    (hw : s.waitingForResponse = false) :
    deliverReply s reply = s := by
  unfold deliverReply
  rw [if_neg (by simp [hw])]

/-- C6: after `processIncomingData`, if the accumulated buffer contains the
prompt terminator `>`, the extracted reply is the trimmed prefix before the
first `>` (`extractReply`), the whole buffer is cleared, and the reply is
stored into the cursor's slot (completing it and clearing
`waitingForResponse`) exactly when a command was in flight — otherwise it
is dropped with the state otherwise untouched; without a terminator the
fragment is only appended. -/
theorem c6_reply_framing (s : ClientState) (data : String)
    (hwf : s.waitingForResponse = true → s.currentCommandIndex < s.commandQueue.length) :
    ((s.incomingData ++ data).data.contains '>' = true →
      (processIncomingData s data).incomingData = "" ∧
      (s.waitingForResponse = true →
        ∃ cmd, s.commandQueue[s.currentCommandIndex]? = some cmd ∧
          processIncomingData s data =
            { s with commandQueue := s.commandQueue.set s.currentCommandIndex
                       { cmd with
                         rawResponse := extractReply (s.incomingData ++ data)
                         completed := true }
                     waitingForResponse := false
                     incomingData := "" }) ∧
      (s.waitingForResponse = false →
        processIncomingData s data = { s with incomingData := "" })) ∧
    ((s.incomingData ++ data).data.contains '>' = false →
      processIncomingData s data = { s with incomingData := s.incomingData ++ data }) := by
  constructor
  · intro hc
    unfold processIncomingData
    rw [if_pos hc]
    refine ⟨rfl, ?_, ?_⟩
    · intro hw
      obtain ⟨cmd, hcmd, heq⟩ :=
        deliverReply_deliver (extractReply (s.incomingData ++ data)) hw (hwf hw)
      refine ⟨cmd, hcmd, ?_⟩
      rw [heq]
    · intro hw
      rw [deliverReply_drop _ hw]
  · intro hc
    unfold processIncomingData
    rw [if_neg (by rw [hc]; decide)]

theorem c6_reply_framing_witness :
    (processIncomingData c6State "0C1AF8> x").incomingData = "" ∧
    (processIncomingData c6State "0C1AF8> x").waitingForResponse = false := by
  obtain ⟨hterm, -⟩ := c6_reply_framing c6State "0C1AF8> x" (fun _ => by decide)
  obtain ⟨hbuf, hdeliver, -⟩ := hterm (by decide)
  obtain ⟨cmd, -, heq⟩ := hdeliver rfl
  exact ⟨hbuf, by rw [heq]⟩

/-! ## C7: timeout recovery and forward progress -/

lemma advanceIdx_eq_mod {i n : Nat} (h : i < n) :
    (if i + 1 ≥ n then 0 else i + 1) = (i + 1) % n := by
  split
  · next hge =>
    have hin : i + 1 = n := by omega
    rw [hin, Nat.mod_self]
  · next hlt2 =>
    rw [Nat.mod_eq_of_lt (by omega)]

lemma isEmpty_false_of_lt {α : Type} {l : List α} {i : Nat} (h : i < l.length) :
    l.isEmpty = false := by
  cases l
  · simp at h
  · rfl

lemma handleTimeout_eq {s : ClientState}
    (hlt : s.currentCommandIndex < s.commandQueue.length) :
    ∃ cmd, s.commandQueue[s.currentCommandIndex]? = some cmd ∧
      handleTimeout s = { s with
        stats := { s.stats with failedCommands := s.stats.failedCommands + 1 }
        waitingForResponse := false
        commandQueue := s.commandQueue.set s.currentCommandIndex
          { cmd with completed := true, rawResponse := "TIMEOUT" } } := by
  unfold handleTimeout
  rw [if_pos hlt]
  cases hq : s.commandQueue[s.currentCommandIndex]? with
  | none =>
    rw [List.getElem?_eq_none_iff] at hq
    omega
  | some cmd => exact ⟨cmd, rfl, rfl⟩

lemma handleTimeout_fields (s : ClientState)
    (hlt : s.currentCommandIndex < s.commandQueue.length) :
    (handleTimeout s).waitingForResponse = false ∧
    (handleTimeout s).currentCommandIndex = s.currentCommandIndex ∧
    (handleTimeout s).commandQueue.length = s.commandQueue.length ∧
    (handleTimeout s).stats.failedCommands = s.stats.failedCommands + 1 ∧
    (handleTimeout s).stats.totalCommands = s.stats.totalCommands ∧
    (handleTimeout s).stats.successfulCommands = s.stats.successfulCommands ∧
    (handleTimeout s).lastCommandCheck = s.lastCommandCheck ∧
    (∃ cmd, s.commandQueue[s.currentCommandIndex]? = some cmd ∧
      (handleTimeout s).commandQueue[s.currentCommandIndex]? =
        some { cmd with completed := true, rawResponse := "TIMEOUT" }) := by
  obtain ⟨cmd, hcmd, hteq⟩ := handleTimeout_eq hlt
  rw [hteq]
  exact ⟨rfl, rfl, by simp, rfl, rfl, rfl, rfl,
    ⟨cmd, hcmd, List.getElem?_set_self hlt⟩⟩

lemma processCommandQueue_tick {s : ClientState} (now : Nat)
    (hrate : ¬ (now - s.lastCommandCheck < 100))
    (hne : s.commandQueue.isEmpty = false) :
    processCommandQueue s now =
      trySend (processCompleted { s with lastCommandCheck := now } now) now := by
  unfold processCommandQueue
  rw [if_neg hrate, if_neg (by rw [hne]; decide)]

lemma processCompleted_eq (s : ClientState) (now : Nat) {cmd : OBDCommand}
    (hcmd : s.commandQueue[s.currentCommandIndex]? = some cmd)
    (hcomp : cmd.completed = true) :
    processCompleted s now = { applyResult s now cmd with
      currentCommandIndex :=
        if s.currentCommandIndex + 1 ≥ (applyResult s now cmd).commandQueue.length then 0
        else s.currentCommandIndex + 1
      commandQueue := (applyResult s now cmd).commandQueue.set s.currentCommandIndex
        { cmd with completed := false, rawResponse := "", sentTime := 0 } } := by
  simp only [processCompleted, hcmd]
  rw [if_pos hcomp]

lemma processCompleted_fields (s : ClientState) (now : Nat) {cmd : OBDCommand}
    (hcmd : s.commandQueue[s.currentCommandIndex]? = some cmd)
    (hcomp : cmd.completed = true) :
    (processCompleted s now).currentCommandIndex =
      (if s.currentCommandIndex + 1 ≥ s.commandQueue.length then 0
       else s.currentCommandIndex + 1) ∧
    (processCompleted s now).commandQueue.length = s.commandQueue.length ∧
    (processCompleted s now).waitingForResponse = s.waitingForResponse ∧
    (processCompleted s now).lastCommandCheck = s.lastCommandCheck ∧
    (processCompleted s now).stats.totalCommands = s.stats.totalCommands := by
  rw [processCompleted_eq s now hcmd hcomp]
  refine ⟨?_, ?_, ?_, ?_, ?_⟩
  · show (if s.currentCommandIndex + 1 ≥ (applyResult s now cmd).commandQueue.length then 0
         else s.currentCommandIndex + 1) = _
    rw [(applyResult_frame s now cmd).1]
  · show ((applyResult s now cmd).commandQueue.set s.currentCommandIndex _).length = _
    rw [List.length_set, (applyResult_frame s now cmd).1]
  · exact (applyResult_frame s now cmd).2.2.1
  · exact (applyResult_frame s now cmd).2.2.2.2
  · exact (applyResult_frame s now cmd).2.2.2.1

lemma trySend_fields (s : ClientState) (now : Nat)
    (hw : s.waitingForResponse = false)
    (hlt : s.currentCommandIndex < s.commandQueue.length) :
    (trySend s now).waitingForResponse = true ∧
    (trySend s now).currentCommandIndex = s.currentCommandIndex ∧
    (trySend s now).stats.totalCommands = s.stats.totalCommands + 1 ∧
    (trySend s now).stats.failedCommands = s.stats.failedCommands ∧
    (trySend s now).stats.successfulCommands = s.stats.successfulCommands := by
  unfold trySend
  rw [if_pos ⟨hw, hlt⟩]
  cases hq : s.commandQueue[s.currentCommandIndex]? with
  | none =>
    rw [List.getElem?_eq_none_iff] at hq
    omega
  | some cmd => exact ⟨rfl, rfl, rfl, rfl, rfl⟩

/-- C7: when a command is in flight and the elapsed time exceeds the
configured timeout, `loop` dispatches to `handleTimeout`, which
force-completes the cursor's slot with the sentinel `"TIMEOUT"`, counts a
failure and clears the waiting flag; the next (non-rate-limited)
`processCommandQueue` pass then advances the cursor modulo the queue
length and sends the next command — the queue never stalls. -/
theorem c7_timeout_recovery (s : ClientState) (now now2 : Nat)
    (hw : s.waitingForResponse = true)
    (hlt : s.currentCommandIndex < s.commandQueue.length)
    (helapsed : s.defaultTimeout < now - s.lastCommandTime)
    (hrate : ¬ (now2 - s.lastCommandCheck < 100)) :
    loopTimeoutPhase s now = handleTimeout s ∧
    (handleTimeout s).waitingForResponse = false ∧
    (handleTimeout s).stats.failedCommands = s.stats.failedCommands + 1 ∧
    (∃ cmd, s.commandQueue[s.currentCommandIndex]? = some cmd ∧
      (handleTimeout s).commandQueue[s.currentCommandIndex]? =
        some { cmd with completed := true, rawResponse := "TIMEOUT" }) ∧
    (processCommandQueue (handleTimeout s) now2).currentCommandIndex =
      (s.currentCommandIndex + 1) % s.commandQueue.length ∧
    (processCommandQueue (handleTimeout s) now2).waitingForResponse = true ∧
    (processCommandQueue (handleTimeout s) now2).stats.totalCommands =
      s.stats.totalCommands + 1 := by
  obtain ⟨hw', hidx', hlen', hfail', htot', hsuc', hlcc', cmd, hcmd, hslot⟩ :=
    handleTimeout_fields s hlt
  have hphase : loopTimeoutPhase s now = handleTimeout s := by
    unfold loopTimeoutPhase
    rw [if_pos ⟨hw, helapsed⟩]
  have hrate' : ¬ (now2 - (handleTimeout s).lastCommandCheck < 100) := by
    rw [hlcc']
    exact hrate
  have hne : (handleTimeout s).commandQueue.isEmpty = false :=
    isEmpty_false_of_lt (i := s.currentCommandIndex) (by rw [hlen']; exact hlt)
  have htick := processCommandQueue_tick now2 hrate' hne
  have ht2cmd : ({ handleTimeout s with lastCommandCheck := now2 }
        : ClientState).commandQueue[({ handleTimeout s with lastCommandCheck := now2 }
        : ClientState).currentCommandIndex]? =
      some { cmd with completed := true, rawResponse := "TIMEOUT" } := by
    show (handleTimeout s).commandQueue[(handleTimeout s).currentCommandIndex]? = _
    rw [hidx']
    exact hslot
  have hpcf := processCompleted_fields
    ({ handleTimeout s with lastCommandCheck := now2 }) now2 ht2cmd rfl
  obtain ⟨hpidx, hplen, hpw, hplcc, hptot⟩ := hpcf
  have hpidx' : (processCompleted { handleTimeout s with lastCommandCheck := now2 }
      now2).currentCommandIndex = (s.currentCommandIndex + 1) % s.commandQueue.length := by
    rw [hpidx]
    show (if (handleTimeout s).currentCommandIndex + 1 ≥
            (handleTimeout s).commandQueue.length then 0
          else (handleTimeout s).currentCommandIndex + 1) = _
    rw [hidx', hlen']
    exact advanceIdx_eq_mod hlt
  have hplen' : (processCompleted { handleTimeout s with lastCommandCheck := now2 }
      now2).commandQueue.length = s.commandQueue.length := by
    rw [hplen]
    show (handleTimeout s).commandQueue.length = _
    exact hlen'
  have hpw' : (processCompleted { handleTimeout s with lastCommandCheck := now2 }
      now2).waitingForResponse = false := by
    rw [hpw]
    exact hw'
  have hptot' : (processCompleted { handleTimeout s with lastCommandCheck := now2 }
      now2).stats.totalCommands = s.stats.totalCommands := by
    rw [hptot]
    exact htot'
  have hlt2 : (processCompleted { handleTimeout s with lastCommandCheck := now2 }
      now2).currentCommandIndex <
      (processCompleted { handleTimeout s with lastCommandCheck := now2 }
      now2).commandQueue.length := by
    rw [hpidx', hplen']
    exact Nat.mod_lt _ (by omega)
  obtain ⟨hsw, hsidx, hstot, -, -⟩ := trySend_fields
    (processCompleted { handleTimeout s with lastCommandCheck := now2 } now2) now2 hpw' hlt2
  refine ⟨hphase, hw', hfail', ⟨cmd, hcmd, hslot⟩, ?_, ?_, ?_⟩
  · rw [htick, hsidx, hpidx']
  · rw [htick, hsw]
  · rw [htick, hstot, hptot']

/-- C7 witness input sanity: the concrete two-slot client times out and
then sends the second command. -/
theorem c7_timeout_recovery_witness :
    (processCommandQueue (handleTimeout c7State) 3000).currentCommandIndex =
      (c7State.currentCommandIndex + 1) % c7State.commandQueue.length ∧
    (processCommandQueue (handleTimeout c7State) 3000).waitingForResponse = true ∧
    (processCommandQueue (handleTimeout c7State) 3000).stats.totalCommands =
      c7State.stats.totalCommands + 1 :=
  have h := c7_timeout_recovery c7State 3000 3000 rfl (by decide) (by decide) (by decide)
  ⟨h.2.2.2.2.1, h.2.2.2.2.2.1, h.2.2.2.2.2.2⟩

/-! ## C9: how timeouts are counted in the statistics -/

lemma applyResult_stats_of_none (s : ClientState) (now : Nat) {cmd : OBDCommand}
    (hne : 0 < cmd.rawResponse.length)
    (hnd : startsWithA cmd.rawResponse "NO DATA" = false)
    (hp : applyParser cmd.pkind cmd.rawResponse = none) :
    (applyResult s now cmd).stats.failedCommands = s.stats.failedCommands + 1 ∧
    (applyResult s now cmd).stats.successfulCommands = s.stats.successfulCommands := by
  unfold applyResult
  rw [if_pos ⟨hne, hnd⟩, hp]
  exact ⟨rfl, rfl⟩

lemma applyResult_stats_of_some (s : ClientState) (now : Nat) {cmd : OBDCommand}
    {v : ℚ} (hne : 0 < cmd.rawResponse.length)
    (hnd : startsWithA cmd.rawResponse "NO DATA" = false)
    (hp : applyParser cmd.pkind cmd.rawResponse = some v) :
    (applyResult s now cmd).stats.failedCommands = s.stats.failedCommands ∧
    (applyResult s now cmd).stats.successfulCommands = s.stats.successfulCommands + 1 := by
  unfold applyResult
  rw [if_pos ⟨hne, hnd⟩, hp]
  exact ⟨rfl, rfl⟩

lemma processCompleted_stats (s : ClientState) (now : Nat) {cmd : OBDCommand}
    (hcmd : s.commandQueue[s.currentCommandIndex]? = some cmd)
    (hcomp : cmd.completed = true) :
    (processCompleted s now).stats = (applyResult s now cmd).stats := by
  rw [processCompleted_eq s now hcmd hcomp]

/-- C9 counterexample: a timed-out percentage-parser command counts one
failure (in `handleTimeout`) and then one bogus *success* on the next
queue pass — not two failures — because `parsePercentage` accepts the
sentinel `"TIMEOUT"` (no prefix check; `strtol("OU") = 0`). -/
theorem c9_percentage_timeout_single_failure :
    (processCommandQueue (handleTimeout c9State) 1000).stats.failedCommands = 1 ∧
    (processCommandQueue (handleTimeout c9State) 1000).stats.successfulCommands = 1 := by
  decide

/-- C9 (amended): a command timeout increments `failedCommands` twice —
once in `handleTimeout` and once when the next queue pass feeds the
non-empty sentinel `"TIMEOUT"` to the slot's parser — for the parsers
that reject the sentinel (`parseRPM`, `parseSpeed`, `parseTemperature`,
`parseAirflow`); for `parsePercentage` slots the sentinel is *accepted*
(decoded as 0), so the timeout counts one failure plus one spurious
success, skewing the statistics in the opposite direction. -/
theorem c9_timeout_failure_double_count (s : ClientState) (now2 : Nat)
    (cmd : OBDCommand)
    (hcmd : s.commandQueue[s.currentCommandIndex]? = some cmd)
    (hrate : ¬ (now2 - s.lastCommandCheck < 100)) :
    ((cmd.pkind = .rpm ∨ cmd.pkind = .speed ∨ cmd.pkind = .temperature ∨
      cmd.pkind = .airflow) →
      (processCommandQueue (handleTimeout s) now2).stats.failedCommands =
        s.stats.failedCommands + 2) ∧
    (cmd.pkind = .percentage →
      (processCommandQueue (handleTimeout s) now2).stats.failedCommands =
        s.stats.failedCommands + 1 ∧
      (processCommandQueue (handleTimeout s) now2).stats.successfulCommands =
        s.stats.successfulCommands + 1) := by
  have hlt : s.currentCommandIndex < s.commandQueue.length :=
    (List.getElem?_eq_some_iff.mp hcmd).1
  obtain ⟨hw', hidx', hlen', hfail', htot', hsuc', hlcc', cmd0, hcmd0, hslot⟩ :=
    handleTimeout_fields s hlt
  have hceq : cmd0 = cmd := Option.some_inj.mp (hcmd0.symm.trans hcmd)
  rw [hceq] at hslot
  have hrate' : ¬ (now2 - (handleTimeout s).lastCommandCheck < 100) := by
    rw [hlcc']
    exact hrate
  have hne : (handleTimeout s).commandQueue.isEmpty = false :=
    isEmpty_false_of_lt (i := s.currentCommandIndex) (by rw [hlen']; exact hlt)
  have htick := processCommandQueue_tick now2 hrate' hne
  have ht2cmd : ({ handleTimeout s with lastCommandCheck := now2 }
        : ClientState).commandQueue[({ handleTimeout s with lastCommandCheck := now2 }
        : ClientState).currentCommandIndex]? =
      some { cmd with completed := true, rawResponse := "TIMEOUT" } := by
    show (handleTimeout s).commandQueue[(handleTimeout s).currentCommandIndex]? = _
    rw [hidx']
    exact hslot
  obtain ⟨hpidx, hplen, hpw, hplcc, hptot⟩ := processCompleted_fields
    ({ handleTimeout s with lastCommandCheck := now2 }) now2 ht2cmd rfl
  have hstats2 := processCompleted_stats
    ({ handleTimeout s with lastCommandCheck := now2 }) now2 ht2cmd rfl
  have hpw' : (processCompleted { handleTimeout s with lastCommandCheck := now2 }
      now2).waitingForResponse = false := by
    rw [hpw]
    exact hw'
  have hlt2 : (processCompleted { handleTimeout s with lastCommandCheck := now2 }
      now2).currentCommandIndex <
      (processCompleted { handleTimeout s with lastCommandCheck := now2 }
      now2).commandQueue.length := by
    rw [hpidx]
    show (if (handleTimeout s).currentCommandIndex + 1 ≥
            (handleTimeout s).commandQueue.length then 0
          else (handleTimeout s).currentCommandIndex + 1) < _
    rw [hplen]
    show _ < (handleTimeout s).commandQueue.length
    rw [hidx', hlen', advanceIdx_eq_mod hlt]
    exact Nat.mod_lt _ (by omega)
  obtain ⟨hsw, hsidx, hstot, hsfail, hssuc⟩ := trySend_fields
    (processCompleted { handleTimeout s with lastCommandCheck := now2 } now2) now2 hpw' hlt2
  have hne0 : 0 < ({ cmd with completed := true, rawResponse := "TIMEOUT" }
      : OBDCommand).rawResponse.length := by
    show 0 < ("TIMEOUT" : String).length
    decide
  have hnd0 : startsWithA ({ cmd with completed := true, rawResponse := "TIMEOUT" }
      : OBDCommand).rawResponse "NO DATA" = false := by
    show startsWithA "TIMEOUT" "NO DATA" = false
    decide
  constructor
  · intro hk
    have hp : applyParser ({ cmd with completed := true, rawResponse := "TIMEOUT" }
        : OBDCommand).pkind ({ cmd with completed := true, rawResponse := "TIMEOUT" }
        : OBDCommand).rawResponse = none := by
      show applyParser cmd.pkind "TIMEOUT" = none
      rcases hk with hk | hk | hk | hk <;> rw [hk] <;> decide
    obtain ⟨haf, -⟩ := applyResult_stats_of_none
      ({ handleTimeout s with lastCommandCheck := now2 }) now2 hne0 hnd0 hp
    rw [htick, hsfail, congrArg Statistics.failedCommands hstats2, haf]
    show (handleTimeout s).stats.failedCommands + 1 = _
    rw [hfail']
  · intro hk
    have hp : applyParser ({ cmd with completed := true, rawResponse := "TIMEOUT" }
        : OBDCommand).pkind ({ cmd with completed := true, rawResponse := "TIMEOUT" }
        : OBDCommand).rawResponse = some (((0 : ℤ) : ℚ) * 100 / 255) := by
      show applyParser cmd.pkind "TIMEOUT" = _
      rw [hk]
      exact parsePercentage_eval "TIMEOUT" 0 (by decide) (by decide)
    obtain ⟨haf, has⟩ := applyResult_stats_of_some
      ({ handleTimeout s with lastCommandCheck := now2 }) now2 hne0 hnd0 hp
    constructor
    · rw [htick, hsfail, congrArg Statistics.failedCommands hstats2, haf]
      show (handleTimeout s).stats.failedCommands = _
      rw [hfail']
    · rw [htick, hssuc, congrArg Statistics.successfulCommands hstats2, has]
      show (handleTimeout s).stats.successfulCommands + 1 = _
      rw [hsuc']

theorem c9_timeout_failure_double_count_witness :
    (processCommandQueue (handleTimeout c9State) 1000).stats.failedCommands =
      c9State.stats.failedCommands + 1 ∧
    (processCommandQueue (handleTimeout c9State) 1000).stats.successfulCommands =
      c9State.stats.successfulCommands + 1 :=
  (c9_timeout_failure_double_count c9State 1000 percSlotInFlight
    (by decide) (by decide)).2 rfl

/-! ## C8 and C10: individual parser facts -/

/-- C8: `parseRPM "410C1AF8"` succeeds with exactly 1726
(a = 0x1A = 26, b = 0xF8 = 248, (26·256 + 248)/4 = 1726). -/
theorem c8_parseRPM_example : parseRPM "410C1AF8" = some 1726 := by
  rw [parseRPM_eval "410C1AF8" 26 248 (by decide) (by decide) (by decide) (by decide)]
  norm_num

/-- C10: `parseVoltage` reports success and writes the constant 12.6 for
every input string — empty or malformed included — with no validation at
all. -/
theorem c10_parseVoltage_always_12_6 (s : String) :
    parseVoltage s = some (12.6 : ℚ) := rfl

end BLEOBD
